import Mathlib

/-!
Shallow embedding of `pyrustic/viewable` (`src/viewable/__init__.py`).

Widgets are identified by natural numbers (Python object identity becomes
`Nat` equality).  Callback invocations are recorded as a trace of `CB` tags
instead of calling stored Python functions.  Python code that may raise is
embedded in `Except String`; the only fallible operation in the source is
the focus-recovery block inside `Lifecycle._handle_destroy_event`, whose
possible toolkit failures are modelled by a `FocusEnv` oracle.
-/

/-- Tags for the four lifecycle callbacks a `Viewable` passes to
`implement_lifecycle`: `_on_map`, `_on_remap`, `_on_unmap`, `_on_destroy`. -/
inductive CB
  | onMap
  | onRemap
  | onUnmap
  | onDestroy
deriving DecidableEq, Repr

/-- The three native tkinter structural notifications the adapter binds:
`<Map>`, `<Unmap>`, `<Destroy>`. -/
inductive EventKind
  | map
  | unmap
  | destroy
deriving DecidableEq, Repr

/-- Toolkit-side facts about the body widget at a given moment:
whether `winfo_exists()` is true and whether the widget is currently
mapped (shown).  `Lifecycle.activate` consults only `bodyExists`. -/
structure WidgetEnv where
  bodyExists : Bool
  bodyMapped : Bool
deriving DecidableEq, Repr

/-- Oracle describing how the toolkit behaves during the focus-recovery
block of `Lifecycle._handle_destroy_event`:
whether `self._master.focus_get()` raises, whether it returns `None`,
and whether the `winfo_toplevel().focus_lastfor().focus_force()` chain
raises. -/
structure FocusEnv where
  focusGetRaises : Bool
  focusGetIsNone : Bool
  focusForceRaises : Bool
deriving DecidableEq, Repr

/-- Embedding of the body of the `try:` block at the end of
`Lifecycle._handle_destroy_event`:
`if self._master.focus_get() is None:
   self._master.winfo_toplevel().focus_lastfor().focus_force()`.
Any toolkit failure surfaces as `.error`. -/
def focusRecovery (env : FocusEnv) : Except String Unit :=
  if env.focusGetRaises then .error "focus_get raised"
  else if env.focusGetIsNone then
    if env.focusForceRaises then .error "focus_force raised"
    else .ok ()
  else .ok ()

/-- State of a `Lifecycle` instance: the bound body and its master
(widget identities), the three bind handles returned by `body.bind`
(`none` models the Python `None` they are initialised to and reset to by
`_unbind`), the `_previously_mapped` flag and the `_active` flag.
An event reaches a handler only while the corresponding handle is set,
mirroring the toolkit's binding table. -/
structure LifecycleState where
  body : Nat
  master : Nat
  bindMapId : Option Nat
  bindUnmapId : Option Nat
  bindDestroyId : Option Nat
  previouslyMapped : Bool
  active : Bool
deriving DecidableEq, Repr

namespace Lifecycle

/-- Embedding of `Lifecycle.__init__`: stores the body and its master,
all three bind ids are `None`, `_previously_mapped` and `_active` start
false. -/
def init (body master : Nat) : LifecycleState :=
  { body := body, master := master, bindMapId := none, bindUnmapId := none,
    bindDestroyId := none, previouslyMapped := false, active := false }

/-- Embedding of `Lifecycle._bind`: subscribes the three handlers via
`_bind_map_event`, `_bind_unmap_event`, `_bind_destroy_event`.  The
concrete handle values stand for the opaque ids tkinter returns. -/
def bindAll (s : LifecycleState) : LifecycleState :=
  { s with bindMapId := some 0, bindUnmapId := some 1, bindDestroyId := some 2 }

/-- Embedding of `Lifecycle._unbind`: unbinds the three handlers from
the toolkit and resets the three ids to `None`. -/
def unbind (s : LifecycleState) : LifecycleState :=
  { s with bindMapId := none, bindUnmapId := none, bindDestroyId := none }

/-- Embedding of `Lifecycle.activate`: returns `False` without touching
anything when the body no longer exists, otherwise `_bind`s and sets
`_active`.  The third component is the trace of callbacks invoked during
activation; the source invokes none. -/
def activate (s : LifecycleState) (env : WidgetEnv) :
    LifecycleState × Bool × List CB :=
  if env.bodyExists = false then (s, false, [])
  else ({ bindAll s with active := true }, true, [])

/-- Embedding of `Lifecycle.deactivate`. -/
def deactivate (s : LifecycleState) (env : WidgetEnv) :
    LifecycleState × Bool :=
  if env.bodyExists = false then (s, false)
  else ({ unbind s with active := false }, true)

/-- Embedding of `Lifecycle._handle_map_event`: ignores events whose
widget is not the body; otherwise fires `_on_remap` if
`_previously_mapped`, else fires `_on_map` and sets the flag. -/
def handleMapEvent (s : LifecycleState) (w : Nat) :
    Except String (LifecycleState × List CB) :=
  if w ≠ s.body then .ok (s, [])
  else if s.previouslyMapped then .ok (s, [CB.onRemap])
  else .ok ({ s with previouslyMapped := true }, [CB.onMap])

/-- Embedding of `Lifecycle._handle_unmap_event`: ignores events whose
widget is not the body; otherwise fires `_on_unmap` and changes no
state. -/
def handleUnmapEvent (s : LifecycleState) (w : Nat) :
    Except String (LifecycleState × List CB) :=
  if w ≠ s.body then .ok (s, [])
  else .ok (s, [CB.onUnmap])

/-- Embedding of `Lifecycle._handle_destroy_event`: ignores events whose
widget is not the body; otherwise `_unbind`s, fires `_on_destroy`,
resets `_previously_mapped`, clears `_active`, then runs the
focus-recovery block inside `try ... except Exception: pass` — both
outcomes of `focusRecovery` produce the same normal return. -/
def handleDestroyEvent (s : LifecycleState) (w : Nat) (env : FocusEnv) :
    Except String (LifecycleState × List CB) :=
  if w ≠ s.body then .ok (s, [])
  else
    let s1 := unbind s
    let s2 := { s1 with previouslyMapped := false, active := false }
    match focusRecovery env with
    | .ok _ => .ok (s2, [CB.onDestroy])
    | .error _ => .ok (s2, [CB.onDestroy])

/-- Toolkit event dispatch to this binding: a handler runs only while
its bind handle is registered.  For `<Destroy>` the bound command is the
lambda of `_bind_destroy_event`, which already filters by
`event.widget is self._body` before calling `_handle_destroy_event`. -/
def deliver (s : LifecycleState) (k : EventKind) (w : Nat) (env : FocusEnv) :
    Except String (LifecycleState × List CB) :=
  match k with
  | .map =>
      if s.bindMapId.isSome then handleMapEvent s w else .ok (s, [])
  | .unmap =>
      if s.bindUnmapId.isSome then handleUnmapEvent s w else .ok (s, [])
  | .destroy =>
      if s.bindDestroyId.isSome then
        if w = s.body then handleDestroyEvent s w env else .ok (s, [])
      else .ok (s, [])

/-- Delivery of a sequence of native events, concatenating the callback
traces. -/
def run (env : FocusEnv) :
    LifecycleState → List (EventKind × Nat) →
    Except String (LifecycleState × List CB)
  | s, [] => .ok (s, [])
  | s, (k, w) :: rest => do
    let r1 ← deliver s k w env
    let r2 ← run env r1.1 rest
    return (r2.1, r1.2 ++ r2.2)

end Lifecycle

/-- Embedding of `implement_lifecycle`: constructs a `Lifecycle` for the
body and activates it.  A body freshly created inside `Viewable.build`
exists and is not yet mapped. -/
def implement_lifecycle (body master : Nat) : LifecycleState :=
  (Lifecycle.activate (Lifecycle.init body master)
    { bodyExists := true, bodyMapped := false }).1

/-- Subclass-supplied environment for `Viewable.build`:
`createBody p` is what `self._create_body(p)` returns (`none` models a
falsy return such as `None`; `some w` a widget, which is truthy), and
`masterOf w` is the widget attribute `w.master`. -/
structure BuildEnv where
  createBody : Nat → Option Nat
  masterOf : Nat → Nat

/-- State of a `Viewable` instance: `__body`, `__built`, plus
instrumentation counting how often the subclass routines
`_create_body` and `_build` have run, and the lifecycle binding
registered by `implement_lifecycle` (if any). -/
structure ViewableState where
  body : Option Nat
  built : Bool
  createBodyCalls : Nat
  buildCalls : Nat
  lifecycle : Option LifecycleState
deriving DecidableEq, Repr

namespace Viewable

/-- Embedding of `Viewable.__init__`: `self.__body = None`,
`self.__built = False`. -/
def init : ViewableState :=
  { body := none, built := false, createBodyCalls := 0, buildCalls := 0,
    lifecycle := none }

/-- Embedding of `Viewable.build`: returns the stored body when already
built; otherwise calls `_create_body(parent)`, stores the result,
registers the lifecycle only when the body is truthy, calls `_build()`,
sets `__built`, and returns the body.  The source contains no `raise`
statement, so every path returns `.ok`. -/
def build (env : BuildEnv) (s : ViewableState) (parent : Nat) :
    Except String (ViewableState × Option Nat) := do
  if s.built then
    return (s, s.body)
  let body := env.createBody parent
  let s1 := { s with body := body, createBodyCalls := s.createBodyCalls + 1 }
  let s2 :=
    match body with
    | some w => { s1 with lifecycle := some (implement_lifecycle w (env.masterOf w)) }
    | none => s1
  let s3 := { s2 with buildCalls := s2.buildCalls + 1, built := true }
  return (s3, body)

/-- The attributes defined on the class `Viewable` in
`src/viewable/__init__.py`: its property and its methods, by source
order. -/
def methodNames : List String :=
  ["__init__", "body", "build", "build_pack", "build_grid", "build_place",
   "build_wait", "_create_body", "_build", "_on_map", "_on_remap",
   "_on_unmap", "_on_destroy"]

end Viewable

section BuildTheorems

/-- Claim C1: from a fresh `Viewable`, the first `build()` runs `_create_body`
and `_build` exactly once; a second `build()` returns the identical body
and leaves the instance state unchanged, so neither routine re-runs. -/
theorem viewable_build_idempotent (env : BuildEnv) (p1 p2 : Nat) :
    ∃ s1 b1,
      Viewable.build env Viewable.init p1 = .ok (s1, b1) ∧
      Viewable.build env s1 p2 = .ok (s1, b1) ∧
      s1.createBodyCalls = 1 ∧ s1.buildCalls = 1 ∧ s1.body = b1 := by
  cases h : env.createBody p1 with
  | none =>
      exact ⟨{ body := none, built := true, createBodyCalls := 1,
               buildCalls := 1, lifecycle := none }, none,
        by simp [Viewable.build, Viewable.init, h]; rfl,
        by simp [Viewable.build]; rfl, rfl, rfl, rfl⟩
  | some w =>
      exact ⟨{ body := some w, built := true, createBodyCalls := 1,
               buildCalls := 1,
               lifecycle := some (implement_lifecycle w (env.masterOf w)) },
             some w,
        by simp [Viewable.build, Viewable.init, h]; rfl,
        by simp [Viewable.build]; rfl, rfl, rfl, rfl⟩

end BuildTheorems

/-- A subclass whose `_create_body` returns `None` (falsy), with a
trivial `.master` attribute map. -/
def noneBodyEnv : BuildEnv :=
  { createBody := fun _ => none, masterOf := fun m => m }

/-- Claim C2 counterexample: with a build routine that produces no body,
`build()` does not raise `MissingBodyError` — it returns normally
(`.ok`) with the absent body, contradicting the claim that the call
fails and the error propagates to the caller. -/
theorem build_no_missing_body_error_cex :
    Viewable.build noneBodyEnv Viewable.init 0 =
      .ok ({ body := none, built := true, createBodyCalls := 1,
             buildCalls := 1, lifecycle := none }, none) := by
  simp [Viewable.build, Viewable.init, noneBodyEnv]; rfl

/-- Claim C2 amended: `Viewable.build` never raises, whatever `_create_body`
returns; when no body is produced the falsy body is simply returned to
the caller and no `MissingBodyError` exists on any path. -/
theorem build_never_raises (env : BuildEnv) (s : ViewableState) (p : Nat) :
    ∃ r, Viewable.build env s p = .ok r := by
  by_cases hb : s.built
  · exact ⟨(s, s.body), by simp [Viewable.build, hb]; rfl⟩
  · cases h : env.createBody p with
    | none =>
        exact ⟨({ s with
                    body := none,
                    createBodyCalls := s.createBodyCalls + 1,
                    buildCalls := s.buildCalls + 1,
                    built := true }, none),
          by simp [Viewable.build, hb, h]; rfl⟩
    | some w =>
        exact ⟨({ s with
                    body := some w,
                    createBodyCalls := s.createBodyCalls + 1,
                    lifecycle := some (implement_lifecycle w (env.masterOf w)),
                    buildCalls := s.buildCalls + 1,
                    built := true }, some w),
          by simp [Viewable.build, hb, h]; rfl⟩

/-- Claim C10: when `_create_body` returns a falsy value, `build()` returns
normally with that value, registers no lifecycle, still runs `_build()`
once, marks the view built, and every later `build()` returns the same
falsy value without re-running `_create_body` or `_build`. -/
theorem build_falsy_body (env : BuildEnv) (p1 p2 : Nat)
    (hfalsy : env.createBody p1 = none) :
    ∃ s1, Viewable.build env Viewable.init p1 = .ok (s1, none) ∧
      s1.lifecycle = none ∧ s1.built = true ∧ s1.body = none ∧
      s1.createBodyCalls = 1 ∧ s1.buildCalls = 1 ∧
      Viewable.build env s1 p2 = .ok (s1, none) := by
  refine ⟨{ body := none, built := true, createBodyCalls := 1,
            buildCalls := 1, lifecycle := none }, ?_, rfl, rfl, rfl, rfl, rfl, ?_⟩
  · simp [Viewable.build, Viewable.init, hfalsy]; rfl
  · simp [Viewable.build]; rfl

/-- Claim C10 witness: the falsy-body behaviour at the concrete environment
`noneBodyEnv` and parents `0`, `1`. -/
theorem build_falsy_body_witness :
    ∃ s1, Viewable.build noneBodyEnv Viewable.init 0 = .ok (s1, none) ∧
      s1.lifecycle = none ∧ s1.built = true ∧ s1.body = none ∧
      s1.createBodyCalls = 1 ∧ s1.buildCalls = 1 ∧
      Viewable.build noneBodyEnv s1 1 = .ok (s1, none) :=
  build_falsy_body noneBodyEnv 0 1 rfl

/-- Claim C9: the class `Viewable` defines no `destroy` method — contrary to
its own docstring, which tells users to call "the view's method
'destroy()' inherited from the class Viewable"; calling it raises
`AttributeError`. -/
theorem viewable_lacks_destroy_method :
    "destroy" ∉ Viewable.methodNames := by
  decide

section LifecycleTheorems

/-- A toolkit state in which the body exists and is already mapped
(shown) at bind time. -/
def mappedWidgetEnv : WidgetEnv :=
  { bodyExists := true, bodyMapped := true }

/-- A focus oracle on which the focus-recovery block succeeds. -/
def quietFocusEnv : FocusEnv :=
  { focusGetRaises := false, focusGetIsNone := false,
    focusForceRaises := false }

/-- A freshly constructed `Lifecycle` for body widget `5` with master
`1`, before activation. -/
def freshLifecycle : LifecycleState :=
  Lifecycle.init 5 1

/-- The same binding after `activate()`: all three handlers subscribed,
not previously mapped, active. -/
def boundLifecycle : LifecycleState :=
  implement_lifecycle 5 1

/-- Claim C3 counterexample: binding to a body that is already shown
(`mappedWidgetEnv.bodyMapped = true`) invokes no callback at all during
`activate()` — in particular `on_map` is not invoked immediately and
synchronously, contradicting the claim. -/
theorem activate_no_immediate_onmap_cex :
    mappedWidgetEnv.bodyMapped = true ∧
    CB.onMap ∉ (Lifecycle.activate freshLifecycle mappedWidgetEnv).2.2 := by
  decide

/-- Claim C3 amended: `activate()` never invokes `on_map` at bind time, even
when the body is already shown; it only checks `winfo_exists` and binds,
and `on_map` fires only once a native map notification for the body is
delivered afterwards. -/
theorem activate_defers_onmap (s : LifecycleState) (env : WidgetEnv)
    (fenv : FocusEnv) (hex : env.bodyExists = true)
    (hpm : s.previouslyMapped = false) :
    (Lifecycle.activate s env).2.2 = [] ∧
    Lifecycle.deliver (Lifecycle.activate s env).1 .map s.body fenv =
      .ok ({ (Lifecycle.activate s env).1 with previouslyMapped := true },
           [CB.onMap]) := by
  constructor
  · simp [Lifecycle.activate, hex]
  · simp [Lifecycle.activate, hex, Lifecycle.deliver, Lifecycle.bindAll,
      Lifecycle.handleMapEvent, hpm]

/-- Claim C3 amended witness: activation over an already-shown body for the
concrete fresh binding fires nothing; the later map notification fires
`on_map`. -/
theorem activate_defers_onmap_witness :
    (Lifecycle.activate freshLifecycle mappedWidgetEnv).2.2 = [] ∧
    Lifecycle.deliver (Lifecycle.activate freshLifecycle mappedWidgetEnv).1
        .map freshLifecycle.body quietFocusEnv =
      .ok ({ (Lifecycle.activate freshLifecycle mappedWidgetEnv).1 with
               previouslyMapped := true },
           [CB.onMap]) :=
  activate_defers_onmap freshLifecycle mappedWidgetEnv quietFocusEnv rfl rfl

/-- Bind of a successful `Except` computation reduces to the
continuation; used to unfold `Lifecycle.run`. -/
theorem ok_bind {ε α β : Type} (a : α) (f : α → Except ε β) :
    (Except.ok a >>= f) = f a := rfl

/-- Claim C4: on a bound not-previously-mapped binding, the first map
notification for the body fires `on_map` and sets the flag; an unmap
notification fires `on_unmap` and changes nothing (flag included); hence
the full show–hide–show sequence fires `on_map`, `on_unmap`, then
`on_remap` (not `on_map`) on the second show. -/
theorem lifecycle_map_unmap_remap (s : LifecycleState) (env : FocusEnv)
    (hm : s.bindMapId.isSome = true) (hu : s.bindUnmapId.isSome = true)
    (hpm : s.previouslyMapped = false) :
    Lifecycle.deliver s .map s.body env =
      .ok ({ s with previouslyMapped := true }, [CB.onMap]) ∧
    Lifecycle.deliver { s with previouslyMapped := true } .unmap s.body env =
      .ok ({ s with previouslyMapped := true }, [CB.onUnmap]) ∧
    Lifecycle.run env s [(.map, s.body), (.unmap, s.body), (.map, s.body)] =
      .ok ({ s with previouslyMapped := true },
           [CB.onMap, CB.onUnmap, CB.onRemap]) := by
  refine ⟨?_, ?_, ?_⟩ <;>
    simp [Lifecycle.run, Lifecycle.deliver, Lifecycle.handleMapEvent,
      Lifecycle.handleUnmapEvent, ok_bind, hm, hu, hpm]

/-- Claim C4 witness: the show–hide–show behaviour at the concrete activated
binding. -/
theorem lifecycle_map_unmap_remap_witness :
    Lifecycle.deliver boundLifecycle .map boundLifecycle.body quietFocusEnv =
      .ok ({ boundLifecycle with previouslyMapped := true }, [CB.onMap]) ∧
    Lifecycle.deliver { boundLifecycle with previouslyMapped := true }
        .unmap boundLifecycle.body quietFocusEnv =
      .ok ({ boundLifecycle with previouslyMapped := true }, [CB.onUnmap]) ∧
    Lifecycle.run quietFocusEnv boundLifecycle
        [(.map, boundLifecycle.body), (.unmap, boundLifecycle.body),
         (.map, boundLifecycle.body)] =
      .ok ({ boundLifecycle with previouslyMapped := true },
           [CB.onMap, CB.onUnmap, CB.onRemap]) :=
  lifecycle_map_unmap_remap boundLifecycle quietFocusEnv rfl rfl rfl

end LifecycleTheorems

section DestroyTheorems

/-- Claim C5: a destroy notification for the bound body, delivered while the
destroy handler is subscribed, unsubscribes all three handles (they
become `none`), invokes `on_destroy`, resets the previously-mapped flag
and marks the binding inactive. -/
theorem lifecycle_destroy_effects (s : LifecycleState) (env : FocusEnv)
    (hd : s.bindDestroyId.isSome = true) :
    Lifecycle.deliver s .destroy s.body env =
      .ok ({ s with
               bindMapId := none,
               bindUnmapId := none,
               bindDestroyId := none,
               previouslyMapped := false,
               active := false }, [CB.onDestroy]) := by
  rcases hf : focusRecovery env with u | msg <;>
    simp [Lifecycle.deliver, hd, Lifecycle.handleDestroyEvent,
      Lifecycle.unbind, hf]

/-- Claim C5 witness: the destroy effects at the concrete activated binding. -/
theorem lifecycle_destroy_effects_witness :
    Lifecycle.deliver boundLifecycle .destroy boundLifecycle.body
        quietFocusEnv =
      .ok ({ boundLifecycle with
               bindMapId := none,
               bindUnmapId := none,
               bindDestroyId := none,
               previouslyMapped := false,
               active := false }, [CB.onDestroy]) :=
  lifecycle_destroy_effects boundLifecycle quietFocusEnv rfl

/-- Claim C6: once the destroy transition has fired, the resulting state `s1`
has no destroy subscription left, so delivering another destroy
notification for the same body invokes nothing — `on_destroy` fires at
most once and the destroyed state is terminal. -/
theorem lifecycle_destroy_terminal (s : LifecycleState) (env env2 : FocusEnv)
    (hd : s.bindDestroyId.isSome = true) :
    ∃ s1, Lifecycle.deliver s .destroy s.body env = .ok (s1, [CB.onDestroy]) ∧
      Lifecycle.deliver s1 .destroy s1.body env2 = .ok (s1, []) ∧
      s1.active = false ∧ s1.bindDestroyId = none := by
  refine ⟨{ s with
              bindMapId := none,
              bindUnmapId := none,
              bindDestroyId := none,
              previouslyMapped := false,
              active := false }, ?_, ?_, rfl, rfl⟩
  · rcases hf : focusRecovery env with u | msg <;>
      simp [Lifecycle.deliver, hd, Lifecycle.handleDestroyEvent,
        Lifecycle.unbind, hf]
  · simp [Lifecycle.deliver]

/-- Claim C6 witness: destroy-then-destroy at the concrete activated binding
fires `on_destroy` exactly once. -/
theorem lifecycle_destroy_terminal_witness :
    ∃ s1, Lifecycle.deliver boundLifecycle .destroy boundLifecycle.body
        quietFocusEnv = .ok (s1, [CB.onDestroy]) ∧
      Lifecycle.deliver s1 .destroy s1.body quietFocusEnv = .ok (s1, []) ∧
      s1.active = false ∧ s1.bindDestroyId = none :=
  lifecycle_destroy_terminal boundLifecycle quietFocusEnv quietFocusEnv rfl

/-- Claim C7: when the focus-recovery block fails (any toolkit error), the
destroy handler still completes the whole destroy sequence and returns
normally — the exception is swallowed and never propagates out of
`_handle_destroy_event`. -/
theorem destroy_swallows_focus_failure (s : LifecycleState) (env : FocusEnv)
    (msg : String) (hfail : focusRecovery env = .error msg) :
    Lifecycle.handleDestroyEvent s s.body env =
      .ok ({ s with
               bindMapId := none,
               bindUnmapId := none,
               bindDestroyId := none,
               previouslyMapped := false,
               active := false }, [CB.onDestroy]) := by
  simp [Lifecycle.handleDestroyEvent, Lifecycle.unbind, hfail]

/-- A focus oracle on which `focus_get` itself raises (for example the
master is already destroyed). -/
def raisingFocusEnv : FocusEnv :=
  { focusGetRaises := true, focusGetIsNone := false,
    focusForceRaises := false }

/-- Claim C7 witness: at the concrete activated binding with a raising focus
oracle, the destroy handler still returns normally with the full destroy
effects. -/
theorem destroy_swallows_focus_failure_witness :
    Lifecycle.handleDestroyEvent boundLifecycle boundLifecycle.body
        raisingFocusEnv =
      .ok ({ boundLifecycle with
               bindMapId := none,
               bindUnmapId := none,
               bindDestroyId := none,
               previouslyMapped := false,
               active := false }, [CB.onDestroy]) :=
  destroy_swallows_focus_failure boundLifecycle raisingFocusEnv
    "focus_get raised" rfl

/-- Claim C8: a map, unmap or destroy notification whose originating widget is
not identically the bound body invokes no callback and leaves the whole
binding state (flags and subscription handles) unchanged. -/
theorem foreign_widget_events_ignored (s : LifecycleState) (k : EventKind)
    (w : Nat) (env : FocusEnv) (hw : w ≠ s.body) :
    Lifecycle.deliver s k w env = .ok (s, []) := by
  cases k <;>
    simp [Lifecycle.deliver, Lifecycle.handleMapEvent,
      Lifecycle.handleUnmapEvent, Lifecycle.handleDestroyEvent, hw]

/-- Claim C8 witness: a notification from foreign widget `7` delivered to the
concrete activated binding (body `5`) changes nothing, for the map
event. -/
theorem foreign_widget_events_ignored_witness :
    Lifecycle.deliver boundLifecycle .map 7 quietFocusEnv =
      .ok (boundLifecycle, []) :=
  foreign_widget_events_ignored boundLifecycle .map 7 quietFocusEnv
    (by decide)

end DestroyTheorems
